import Mathlib

/-!
Verification of the `ldap_proxy` authenticating reverse proxy
(`ldap_proxy.go`).  The definitions below are a shallow embedding of the
Go source: pure Go functions become Lean functions, the per-request
authentication state machine becomes explicit state passing, and the
external collaborators (the standard library IP/base64 parsers, the
compiled regular expressions, the htpasswd store, the LDAP client and
the cookie codec) become explicitly passed function values, exactly as
they are consumed by the Go code.
-/

namespace LdapProxy

/-- The in-memory session.  The Go `SessionState` carries `User` and
`Email` string fields; the timestamps live inside the signed cookie and
reach the engine as the separate `sessionAge` value returned by
`LoadCookiedSession`. -/
structure SessionState where
  user : String
  email : String
deriving Repr, DecidableEq

/-- The per-request data the embedded functions consume: method, URL
path, the raw peer address (`req.RemoteAddr`), the header map, the
parsed form values, and whether `req.ParseForm` fails for this
request. -/
structure Request where
  method : String
  path : String
  remoteAddr : String
  headers : List (String × String)
  form : List (String × String)
  parseFormFails : Bool
deriving Repr, DecidableEq

/-- Go `Header.Get` / `Form.Get`: the value of the first matching key,
or the empty string when the key is absent. -/
def lookupStr (kvs : List (String × String)) (k : String) : String :=
  match kvs.find? (fun kv => kv.1 == k) with
  | some kv => kv.2
  | none => ""

/-- Go `req.FormValue(k)` / `req.Form.Get(k)` on the modelled form. -/
def formValue (req : Request) (k : String) : String :=
  lookupStr req.form k

/-- Go `strings.HasPrefix`. -/
def goStartsWith (s pre : String) : Bool :=
  pre.data.isPrefixOf s.data

/-- Go `strings.ToLower` (ASCII case folding, which is what the
configured group names and the directory-returned group names use). -/
def goToLower (s : String) : String :=
  String.mk (s.data.map Char.toLower)

/-- Split a character list at the first occurrence of the (non-empty)
separator: the part before it and the part after it, or `none` when
the separator does not occur. -/
def splitFirstAux (sep : List Char) : List Char → Option (List Char × List Char)
  | [] => none
  | c :: cs =>
    if sep.isPrefixOf (c :: cs) then some ([], (c :: cs).drop sep.length)
    else
      match splitFirstAux sep cs with
      | some (pre, post) => some (c :: pre, post)
      | none => none

/-- Go `strings.SplitN(s, sep, 2)`: the part before the first
occurrence of `sep` and the remainder; `[s]` when `sep` does not
occur. -/
def goSplitN2 (s sep : String) : List String :=
  match splitFirstAux sep.data s.data with
  | none => [s]
  | some (pre, post) => [String.mk pre, String.mk post]

/-- The subset of the `LdapProxy` struct fields that the verified
functions read.  The external collaborators kept as function values:
`validator` is the injected identity-allow predicate, `htpasswd` is the
`HtpasswdFile` (`none` when the proxy has no credential file, otherwise
its `Validate(user, password)` method), `pathMatchers` are the
`MatchString` methods of the compiled skip-auth regular expressions,
`ipRanges` are the `Contains` methods of the configured CIDR blocks,
and `parseIP` is the standard library `net.ParseIP` (returning `none`
exactly on unparseable input, where Go returns a nil `net.IP`). -/
structure ProxyConfig where
  cookieExpire : Int
  cookieRefresh : Int
  validator : String → Bool
  htpasswd : Option (String → String → Bool)
  basicAuthPassword : String
  passBasicAuth : Bool
  passUserHeaders : Bool
  setXAuthRequest : Bool
  ldapGroups : List String
  realIPHeader : String
  proxyIPHeader : String
  robotsPath : String
  pingPath : String
  signInPath : String
  signOutPath : String
  authOnlyPath : String
  skipAuthPreflight : Bool
  pathMatchers : List (String → Bool)
  ipRanges : List (String → Bool)
  parseIP : String → Option String

/-- `LdapProxy.getRemoteAddr`: parse the host part of the raw peer
address, then overwrite the result with the parsed real-IP header when
that header is non-empty, then overwrite it with the parsed proxy-IP
header when that header is non-empty. -/
def getRemoteAddr (cfg : ProxyConfig) (req : Request) : Option String :=
  let remoteAddrstr := (goSplitN2 req.remoteAddr ":").headD ""
  let ip := cfg.parseIP remoteAddrstr
  let ip := if lookupStr req.headers cfg.realIPHeader ≠ "" then
      cfg.parseIP (lookupStr req.headers cfg.realIPHeader) else ip
  let ip := if lookupStr req.headers cfg.proxyIPHeader ≠ "" then
      cfg.parseIP (lookupStr req.headers cfg.proxyIPHeader) else ip
  ip

/-- `LdapProxy.IsWhitelistedIP`: false on a nil address, otherwise true
iff some configured CIDR block contains the address. -/
def isWhitelistedIP (ranges : List (String → Bool)) (remoteAddr : Option String) : Bool :=
  match remoteAddr with
  | none => false
  | some ip => ranges.any (fun c => c ip)

/-- `LdapProxy.IsWhitelistedPath`: true iff some compiled skip-auth
regular expression matches the path. -/
def isWhitelistedPath (cfg : ProxyConfig) (path : String) : Bool :=
  cfg.pathMatchers.any (fun m => m path)

/-- `LdapProxy.IsWhitelistedRequest`: preflight bypass, or path match,
or IP match on the resolved client address. -/
def isWhitelistedRequest (cfg : ProxyConfig) (req : Request) : Bool :=
  (cfg.skipAuthPreflight && (req.method == "OPTIONS"))
    || isWhitelistedPath cfg req.path
    || isWhitelistedIP cfg.ipRanges (getRemoteAddr cfg req)

/-- The seven outcomes of the `ServeHTTP` dispatch switch, in source
order: the robots handler, the ping handler, the upstream mux (the
whitelist branch), the sign-in, sign-out and auth-only handlers, and
the default authenticated proxy branch. -/
inductive Dispatch where
  | robots
  | ping
  | upstream
  | signInHandler
  | signOutHandler
  | authOnlyHandler
  | proxyHandler
deriving Repr, DecidableEq

/-- `LdapProxy.ServeHTTP`: the dispatch switch, cases evaluated in
source order. -/
def serveHTTP (cfg : ProxyConfig) (req : Request) : Dispatch :=
  if req.path = cfg.robotsPath then Dispatch.robots
  else if req.path = cfg.pingPath then Dispatch.ping
  else if isWhitelistedRequest cfg req then Dispatch.upstream
  else if req.path = cfg.signInPath then Dispatch.signInHandler
  else if req.path = cfg.signOutPath then Dispatch.signOutHandler
  else if req.path = cfg.authOnlyPath then Dispatch.authOnlyHandler
  else Dispatch.proxyHandler

/-- `LdapProxy.GetRedirect`: a `ParseForm` failure is returned as the
error; otherwise the `rd` form value, replaced by `"/"` when it is
empty, does not start with `"/"`, or starts with `"//"`. -/
def getRedirect (req : Request) : Except String String :=
  if req.parseFormFails then Except.error "parse form failed"
  else
    let redirect := formValue req "rd"
    Except.ok
      (if redirect = "" ∨ goStartsWith redirect "/" = false ∨ goStartsWith redirect "//" = true
       then "/" else redirect)

/-- `sliceContainsString`: true iff the two lists share an element up
to ASCII case. -/
def sliceContainsString (a b : List String) : Bool :=
  a.any (fun aItem => b.any (fun bItem => goToLower aItem == goToLower bItem))

/-- The external LDAP client as consumed by `LdapSignIn`:
`connect` is `NewLDAPClient` (error when the connection cannot be
opened), `auth` is `ldapClient.Authenticate(user, passwd)` returning
the ok flag and the attribute map, and `groupsOf` is
`ldapClient.GetGroupsOfUser(dn)`. -/
structure LdapEnv where
  connect : Except String Unit
  auth : String → String → Except String (Bool × (String → String))
  groupsOf : String → Except String (List String)

/-- `LdapProxy.ManualSignIn`: only a POST with a configured htpasswd
file and a non-empty username is checked; the username is returned on a
successful `Validate`. -/
def manualSignIn (cfg : ProxyConfig) (req : Request) : String × Bool :=
  if req.method ≠ "POST" then ("", false)
  else
    match cfg.htpasswd with
    | none => ("", false)
    | some validate =>
      let user := formValue req "username"
      let passwd := formValue req "password"
      if user = "" then ("", false)
      else if validate user passwd then (user, true)
      else ("", false)

/-- `LdapProxy.LdapSignIn`: empty username, connection failure, bind
error and bind rejection all yield `("", nil, false)`; a successful
bind followed by a group lookup error yields `(user, nil, true)`; a
successful bind and lookup yields `(user, groups, true)`. -/
def ldapSignIn (lenv : LdapEnv) (req : Request) : String × List String × Bool :=
  let user := formValue req "username"
  let passwd := formValue req "password"
  if user = "" then ("", [], false)
  else
    match lenv.connect with
    | Except.error _ => ("", [], false)
    | Except.ok _ =>
      match lenv.auth user passwd with
      | Except.error _ => ("", [], false)
      | Except.ok (ok, attrs) =>
        if ok then
          match lenv.groupsOf (attrs "dn") with
          | Except.error _ => (user, [], true)
          | Except.ok groups => (user, groups, true)
        else ("", [], false)

/-- The observable outcome of `LdapProxy.SignIn`: the HTTP status
written, the redirect location when one is issued, the session handed
to `SaveSession` when the cookie is set, and whether the failure page
cleared the session cookie (`SignInPage` always clears it). -/
structure SignInOutcome where
  status : Nat
  location : Option String
  savedSession : Option SessionState
  clearedCookie : Bool
deriving Repr, DecidableEq

/-- `LdapProxy.SignIn`: resolve the redirect (a form-parse failure is a
500 error page), try the local-file provider, then the directory
provider; a directory-authenticated user passes the group gate only
when the allow-list is empty or shares a group with the fetched ones.
A failed directory attempt renders the sign-in page with status 200
and a rejected group gate renders it with status 401. -/
def signIn (cfg : ProxyConfig) (lenv : LdapEnv) (req : Request) : SignInOutcome :=
  match getRedirect req with
  | Except.error _ =>
    { status := 500, location := none, savedSession := none, clearedCookie := false }
  | Except.ok redirect =>
    match manualSignIn cfg req with
    | (muser, true) =>
      { status := 302, location := some redirect,
        savedSession := some { user := muser, email := "" }, clearedCookie := false }
    | (_, false) =>
      match ldapSignIn lenv req with
      | (user, groups, ok) =>
        let session : SessionState := { user := user, email := "" }
        if ok = false then
          { status := 200, location := none, savedSession := none, clearedCookie := true }
        else if cfg.ldapGroups ≠ [] then
          if sliceContainsString cfg.ldapGroups groups then
            { status := 302, location := some redirect,
              savedSession := some session, clearedCookie := false }
          else
            { status := 401, location := none, savedSession := none, clearedCookie := true }
        else
          { status := 302, location := some redirect,
            savedSession := some session, clearedCookie := false }

/-- `LdapProxy.CheckBasicAuth` over an abstract standard-library base64
decoder `b64decode`: no htpasswd file or no `Authorization` header is
`(nil, nil)`; a wrong scheme, a decode failure or a missing colon are
errors; otherwise the decoded pair is validated against the htpasswd
file, yielding a session whose only populated field is the user. -/
def checkBasicAuth (htpasswd : Option (String → String → Bool))
    (b64decode : String → Except String String) (req : Request) :
    Except String (Option SessionState) :=
  match htpasswd with
  | none => Except.ok none
  | some validate =>
    let auth := lookupStr req.headers "Authorization"
    if auth = "" then Except.ok none
    else
      let s := goSplitN2 auth " "
      if s.length ≠ 2 ∨ s.headD "" ≠ "Basic" then
        Except.error ("invalid Authorization header " ++ auth)
      else
        match b64decode (s.getD 1 "") with
        | Except.error e => Except.error e
        | Except.ok b =>
          let pair := goSplitN2 b ":"
          if pair.length ≠ 2 then Except.error ("invalid format " ++ b)
          else if validate (pair.headD "") (pair.getD 1 "") then
            Except.ok (some { user := pair.headD "", email := "" })
          else Except.error ((pair.headD "") ++ " not in HtpasswdFile")

/-- The per-request inputs of `Authenticate` that come from the cookie
codec and the injected hooks, all of which live outside this file:
`loadedSession` and `sessionAge` are the result of
`LoadCookiedSession` (`none` on any verification failure),
`refreshOutcome` is the `RefreshSessionIfNeeded` hook, `validState` is
the `ValidateSessionState` hook result, `saveOutcome` is the
`SaveSession` cookie re-signing result, and `b64decode` is the
standard-library base64 decoder used by `CheckBasicAuth`. -/
structure AuthEnv where
  loadedSession : Option SessionState
  sessionAge : Int
  refreshOutcome : Except String Bool
  validState : Bool
  saveOutcome : Except String Unit
  b64decode : String → Except String String

/-- The mutable decision tuple threaded through `Authenticate`. -/
structure EngineState where
  session : Option SessionState
  saveSession : Bool
  clearSession : Bool
  revalidated : Bool
deriving Repr, DecidableEq

/-- `Authenticate`, first block: mark the cookie for re-issue when a
session is present, its age exceeds the refresh interval, and refresh
is enabled (interval non-zero). -/
def stepRefreshInterval (cfg : ProxyConfig) (sessionAge : Int) (st : EngineState) : EngineState :=
  match st.session with
  | none => st
  | some _ =>
    if sessionAge > cfg.cookieRefresh ∧ cfg.cookieRefresh ≠ 0 then
      { st with saveSession := true }
    else st

/-- `Authenticate`, second block: an error from the
`RefreshSessionIfNeeded` hook drops the session and schedules a cookie
clear; a true result marks the session saved and revalidated. -/
def stepRefreshHook (refreshOutcome : Except String Bool) (st : EngineState) : EngineState :=
  match refreshOutcome with
  | Except.error _ => { st with clearSession := true, session := none }
  | Except.ok true => { st with saveSession := true, revalidated := true }
  | Except.ok false => st

/-- `Authenticate`, third block: a present expired session is dropped,
its pending save cancelled and a cookie clear scheduled.
`session.IsExpired()` is not part of this source file; modelled from
the spec: it holds exactly when the session age exceeds the configured
cookie expiry. -/
def stepExpiry (cfg : ProxyConfig) (sessionAge : Int) (st : EngineState) : EngineState :=
  match st.session with
  | none => st
  | some _ =>
    if sessionAge > cfg.cookieExpire then
      { st with session := none, saveSession := false, clearSession := true }
    else st

/-- `Authenticate`, fourth block: a pending, not-yet-revalidated save
of a present session runs the `ValidateSessionState` hook and drops
the session when it fails. -/
def stepValidate (validState : Bool) (st : EngineState) : EngineState :=
  match st.session with
  | none => st
  | some _ =>
    if st.saveSession ∧ st.revalidated = false ∧ validState = false then
      { st with saveSession := false, session := none, clearSession := true }
    else st

/-- `Authenticate`, fifth block: a present session with a non-empty
email that the identity-allow predicate rejects is dropped with a
cookie clear (the predicate is only evaluated when the email is
non-empty, mirroring the short-circuit conjunction in the source). -/
def stepPolicyGate (validator : String → Bool) (st : EngineState) : EngineState :=
  match st.session with
  | none => st
  | some s =>
    if s.email ≠ "" ∧ validator s.email = false then
      { st with session := none, saveSession := false, clearSession := true }
    else st

/-- The decision state right before the cookie-save block of
`Authenticate`: the five decision blocks applied in source order to
the loaded session. -/
def preSaveState (cfg : ProxyConfig) (env : AuthEnv) : EngineState :=
  stepPolicyGate cfg.validator
    (stepValidate env.validState
      (stepExpiry cfg env.sessionAge
        (stepRefreshHook env.refreshOutcome
          (stepRefreshInterval cfg env.sessionAge
            { session := env.loadedSession, saveSession := false,
              clearSession := false, revalidated := false }))))

/-- The observable outcome of `Authenticate`: the returned status, the
cookie side effects (`saveAttempted` means `SaveSession` was invoked,
`saveFailed` that it failed and 500 was returned, `clearedCookie` that
`ClearSessionCookie` ran), whether the Basic-Auth fallback was
consulted, the session used for header injection, the injected
headers, and the final values of the `saveSession`/`clearSession`
flags. -/
structure AuthResult where
  status : Nat
  saveAttempted : Bool
  saveFailed : Bool
  clearedCookie : Bool
  basicConsulted : Bool
  finalSession : Option SessionState
  outAuth : Option (String × String)
  xfUser : Option String
  xfEmail : Option String
  xarUser : Option String
  xarEmail : Option String
  lapAuth : Option String
  saveSessionFlag : Bool
  clearSessionFlag : Bool
deriving Repr, DecidableEq

/-- The tail of `Authenticate` after the cookie-save block: clear the
cookie when scheduled, fall back to `CheckBasicAuth` when no session
remains (an error there only logs), return 403 without a session, and
otherwise inject the configured identity headers, the `LAP-Auth` trust
header (email when present, else user) and return 202. -/
def authFinish (cfg : ProxyConfig) (env : AuthEnv) (req : Request)
    (st : EngineState) (saveAttempted : Bool) : AuthResult :=
  let basicResult : Option SessionState × Bool :=
    match st.session with
    | some s => (some s, false)
    | none =>
      match checkBasicAuth cfg.htpasswd env.b64decode req with
      | Except.ok os => (os, true)
      | Except.error _ => (none, true)
  match basicResult with
  | (none, bc) =>
    { status := 403, saveAttempted := saveAttempted, saveFailed := false,
      clearedCookie := st.clearSession, basicConsulted := bc, finalSession := none,
      outAuth := none, xfUser := none, xfEmail := none, xarUser := none,
      xarEmail := none, lapAuth := none,
      saveSessionFlag := st.saveSession, clearSessionFlag := st.clearSession }
  | (some s, bc) =>
    { status := 202, saveAttempted := saveAttempted, saveFailed := false,
      clearedCookie := st.clearSession, basicConsulted := bc, finalSession := some s,
      outAuth := if cfg.passBasicAuth then some (s.user, cfg.basicAuthPassword) else none,
      xfUser := if cfg.passBasicAuth ∨ cfg.passUserHeaders then some s.user else none,
      xfEmail := if (cfg.passBasicAuth ∨ cfg.passUserHeaders) ∧ s.email ≠ "" then
          some s.email else none,
      xarUser := if cfg.setXAuthRequest then some s.user else none,
      xarEmail := if cfg.setXAuthRequest ∧ s.email ≠ "" then some s.email else none,
      lapAuth := some (if s.email = "" then s.user else s.email),
      saveSessionFlag := st.saveSession, clearSessionFlag := st.clearSession }

/-- `LdapProxy.Authenticate`: the five decision blocks, then the
cookie-save block (a failed `SaveSession` returns 500 immediately,
skipping everything after it), then the tail. -/
def authenticate (cfg : ProxyConfig) (env : AuthEnv) (req : Request) : AuthResult :=
  let st := preSaveState cfg env
  match st.session with
  | some _ =>
    if st.saveSession then
      match env.saveOutcome with
      | Except.error _ =>
        { status := 500, saveAttempted := true, saveFailed := true,
          clearedCookie := false, basicConsulted := false, finalSession := none,
          outAuth := none, xfUser := none, xfEmail := none, xarUser := none,
          xarEmail := none, lapAuth := none,
          saveSessionFlag := st.saveSession, clearSessionFlag := st.clearSession }
      | Except.ok _ => authFinish cfg env req st true
    else authFinish cfg env req st false
  | none => authFinish cfg env req st false

/-- The three outcomes of `LdapProxy.Proxy` applied to the status
`Authenticate` returned: the 500 error page, the forbidden sign-in
page, or the upstream mux. -/
inductive ProxyAction where
  | errorPage
  | forbiddenSignInPage
  | upstreamMux
deriving Repr, DecidableEq

/-- `LdapProxy.Proxy`: dispatch on the status returned by
`Authenticate`. -/
def proxyDispatch (status : Nat) : ProxyAction :=
  if status = 500 then ProxyAction.errorPage
  else if status = 403 then ProxyAction.forbiddenSignInPage
  else ProxyAction.upstreamMux

/-- The session produced by the `CheckBasicAuth` fallback as
`Authenticate` consumes it: the successful result, with errors
collapsed to no session. -/
def basicSessionOf (cfg : ProxyConfig) (env : AuthEnv) (req : Request) : Option SessionState :=
  match checkBasicAuth cfg.htpasswd env.b64decode req with
  | Except.ok os => os
  | Except.error _ => none

/-- A concrete configuration used to evaluate the theorems below on
explicit inputs: refresh after 10, expiry after 100, an allow
predicate rejecting every email, an htpasswd file that accepts
`bob`/`pw`, a skip-auth pattern matching exactly the sign-in path, and
an IP parser recognising three addresses. -/
def cfgBase : ProxyConfig where
  cookieExpire := 100
  cookieRefresh := 10
  validator := fun _ => false
  htpasswd := some (fun u p => u == "bob" && p == "pw")
  basicAuthPassword := "shared"
  passBasicAuth := false
  passUserHeaders := true
  setXAuthRequest := false
  ldapGroups := []
  realIPHeader := "X-Real-IP"
  proxyIPHeader := "X-Proxy-IP"
  robotsPath := "/robots.txt"
  pingPath := "/ping"
  signInPath := "/lap/sign_in"
  signOutPath := "/lap/sign_out"
  authOnlyPath := "/lap/auth"
  skipAuthPreflight := false
  pathMatchers := [fun s => s == "/lap/sign_in"]
  ipRanges := []
  parseIP := fun s =>
    if s = "1.1.1.1" then some "R"
    else if s = "2.2.2.2" then some "P"
    else if s = "9.9.9.9" then some "E"
    else none

/-- A concrete request carrying both IP headers and a Basic
`bob:pw` credential. -/
def reqBase : Request where
  method := "GET"
  path := "/private/page"
  remoteAddr := "9.9.9.9:1234"
  headers := [("X-Real-IP", "1.1.1.1"), ("X-Proxy-IP", "2.2.2.2"),
              ("Authorization", "Basic Ym9iOnB3")]
  form := []
  parseFormFails := false

/-- A concrete cookie-codec environment: a valid loaded session with a
non-empty email, age 5, no provider refresh, passing local validation,
a succeeding save, and a base64 decoder recognising the `bob:pw`
credential. -/
def envBase : AuthEnv where
  loadedSession := some { user := "alice", email := "x@y.com" }
  sessionAge := 5
  refreshOutcome := Except.ok false
  validState := true
  saveOutcome := Except.ok ()
  b64decode := fun s => if s = "Ym9iOnB3" then Except.ok "bob:pw" else Except.error "bad b64"

/-- A concrete LDAP environment whose bind accepts `carol`/`pass` with
groups `eng` and `ops`, and whose group lookup errors for the
distinguished name `dnERR`. -/
def lenvBase : LdapEnv where
  connect := Except.ok ()
  auth := fun u p =>
    if u = "carol" ∧ p = "pass" then Except.ok (true, fun k => if k = "dn" then "dnOK" else "")
    else if u = "dave" ∧ p = "pass" then Except.ok (true, fun k => if k = "dn" then "dnERR" else "")
    else Except.ok (false, fun _ => "")
  groupsOf := fun dn =>
    if dn = "dnOK" then Except.ok ["eng", "ops"] else Except.error "lookup failed"

/-- A sign-in POST for `carol`/`pass` (bind succeeds, groups fetch
returns `eng` and `ops`). -/
def reqCarol : Request :=
  { reqBase with method := "POST", form := [("username", "carol"), ("password", "pass")] }

/-- A sign-in POST for `dave`/`pass` (bind succeeds, group lookup
errors). -/
def reqDave : Request :=
  { reqBase with method := "POST", form := [("username", "dave"), ("password", "pass")] }

/- ------------------------------------------------------------------ -/
/- Theorems.                                                          -/
/- ------------------------------------------------------------------ -/

/-- C7: for every sign-in request whose form parses, the redirect from
the `rd` parameter is used as given exactly when it starts with `/`
and does not start with `//`; in every other case (empty, missing,
relative, scheme-bearing or protocol-relative) it resolves to `/`. -/
theorem c7_redirect_sanitized (req : Request) (h : req.parseFormFails = false) :
    (goStartsWith (formValue req "rd") "/" = true ∧ goStartsWith (formValue req "rd") "//" = false →
      getRedirect req = Except.ok (formValue req "rd")) ∧
    (¬(goStartsWith (formValue req "rd") "/" = true ∧ goStartsWith (formValue req "rd") "//" = false) →
      getRedirect req = Except.ok "/") := by
  constructor
  · rintro ⟨h1, h2⟩
    have hne : ¬ formValue req "rd" = "" := by
      intro he
      rw [he] at h1
      exact absurd h1 (by decide)
    simp only [getRedirect, h, Bool.false_eq_true, if_false]
    rw [if_neg]
    push_neg
    exact ⟨hne, by simp [h1], by simp [h2]⟩
  · intro hcond
    simp only [getRedirect, h, Bool.false_eq_true, if_false]
    rw [if_pos]
    rcases not_and_or.mp hcond with ha | hb
    · exact Or.inr (Or.inl (by simpa using ha))
    · exact Or.inr (Or.inr (by simpa using hb))

/-- Evaluation of `c7_redirect_sanitized` on explicit inputs: an
in-site path is kept, a protocol-relative target collapses to `/`. -/
theorem c7_redirect_sanitized_witness :
    getRedirect { reqBase with form := [("rd", "/private/page")] } = Except.ok "/private/page" ∧
    getRedirect { reqBase with form := [("rd", "//evil.example")] } = Except.ok "/" :=
  ⟨(c7_redirect_sanitized { reqBase with form := [("rd", "/private/page")] } rfl).1
      (by decide),
   (c7_redirect_sanitized { reqBase with form := [("rd", "//evil.example")] } rfl).2
      (by decide)⟩

/-- C2, counterexample to the claimed priority: with both headers
present (`X-Real-IP` parsing to `R`, `X-Proxy-IP` parsing to `P`),
`getRemoteAddr` resolves to the proxy-IP header value, not the real-IP
header value. -/
theorem c2_counterexample :
    lookupStr reqBase.headers cfgBase.realIPHeader = "1.1.1.1" ∧
    lookupStr reqBase.headers cfgBase.proxyIPHeader = "2.2.2.2" ∧
    cfgBase.parseIP "1.1.1.1" = some "R" ∧
    cfgBase.parseIP "2.2.2.2" = some "P" ∧
    getRemoteAddr cfgBase reqBase = some "P" ∧
    getRemoteAddr cfgBase reqBase ≠ some "R" := by
  refine ⟨rfl, rfl, rfl, rfl, rfl, by decide⟩

/-- C2 amended: client IP resolution prefers the configured proxy-IP
header when present (even when the real-IP header is also present);
only when it is absent is the real-IP header consulted, and only when
both are absent is the raw peer address used. -/
theorem c2_ip_priority (cfg : ProxyConfig) (req : Request) :
    (lookupStr req.headers cfg.proxyIPHeader ≠ "" →
      getRemoteAddr cfg req = cfg.parseIP (lookupStr req.headers cfg.proxyIPHeader)) ∧
    (lookupStr req.headers cfg.proxyIPHeader = "" →
      lookupStr req.headers cfg.realIPHeader ≠ "" →
      getRemoteAddr cfg req = cfg.parseIP (lookupStr req.headers cfg.realIPHeader)) ∧
    (lookupStr req.headers cfg.proxyIPHeader = "" →
      lookupStr req.headers cfg.realIPHeader = "" →
      getRemoteAddr cfg req = cfg.parseIP ((goSplitN2 req.remoteAddr ":").headD "")) := by
  refine ⟨fun hp => ?_, fun hp hr => ?_, fun hp hr => ?_⟩
  · simp only [getRemoteAddr]
    rw [if_pos hp]
  · simp only [getRemoteAddr]
    rw [if_neg (by simp [hp]), if_pos hr]
  · simp only [getRemoteAddr]
    rw [if_neg (by simp [hp]), if_neg (by simp [hr])]

/-- Evaluation of `c2_ip_priority` on explicit inputs: with both
headers present the proxy-IP header decides. -/
theorem c2_ip_priority_witness :
    getRemoteAddr cfgBase reqBase = some "P" :=
  (c2_ip_priority cfgBase reqBase).1 (by decide)

/-- C9: when the value the code ends up consulting (the proxy-IP
header if non-empty, else the real-IP header if non-empty, else the
host part of the raw peer address) does not parse, the resolved client
IP is nil and the IP whitelist check rejects for every configured CIDR
set; in particular a non-empty unparseable proxy-IP header overrides
an otherwise valid peer address. -/
theorem c9_unparseable_ip (cfg : ProxyConfig) (req : Request) :
    (lookupStr req.headers cfg.proxyIPHeader ≠ "" →
      cfg.parseIP (lookupStr req.headers cfg.proxyIPHeader) = none →
      getRemoteAddr cfg req = none) ∧
    (lookupStr req.headers cfg.proxyIPHeader = "" →
      lookupStr req.headers cfg.realIPHeader ≠ "" →
      cfg.parseIP (lookupStr req.headers cfg.realIPHeader) = none →
      getRemoteAddr cfg req = none) ∧
    (lookupStr req.headers cfg.proxyIPHeader = "" →
      lookupStr req.headers cfg.realIPHeader = "" →
      cfg.parseIP ((goSplitN2 req.remoteAddr ":").headD "") = none →
      getRemoteAddr cfg req = none) ∧
    (∀ ranges, getRemoteAddr cfg req = none →
      isWhitelistedIP ranges (getRemoteAddr cfg req) = false) := by
  refine ⟨fun hp hn => ?_, fun hp hr hn => ?_, fun hp hr hn => ?_, fun ranges h => ?_⟩
  · simp only [getRemoteAddr]
    rw [if_pos hp, hn]
  · simp only [getRemoteAddr]
    rw [if_neg (by simp [hp]), if_pos hr, hn]
  · simp only [getRemoteAddr]
    rw [if_neg (by simp [hp]), if_neg (by simp [hr]), hn]
  · rw [h]
    rfl

/-- Evaluation of `c9_unparseable_ip` on explicit inputs: an
unparseable proxy-IP header yields a nil client IP and a rejected IP
whitelist check although the peer address itself parses. -/
theorem c9_unparseable_ip_witness :
    getRemoteAddr cfgBase { reqBase with headers := [("X-Proxy-IP", "not-an-ip")] } = none ∧
    isWhitelistedIP [fun _ => true]
      (getRemoteAddr cfgBase { reqBase with headers := [("X-Proxy-IP", "not-an-ip")] }) = false ∧
    cfgBase.parseIP "9.9.9.9" = some "E" :=
  ⟨(c9_unparseable_ip cfgBase { reqBase with headers := [("X-Proxy-IP", "not-an-ip")] }).1
      (by decide) (by decide),
   (c9_unparseable_ip cfgBase { reqBase with headers := [("X-Proxy-IP", "not-an-ip")] }).2.2.2
      [fun _ => true]
      ((c9_unparseable_ip cfgBase
          { reqBase with headers := [("X-Proxy-IP", "not-an-ip")] }).1 (by decide) (by decide)),
   rfl⟩

/-- C5, counterexample: a request to the sign-in system path that also
matches a skip-auth path pattern is dispatched to the upstream mux,
not to the sign-in handler — the whitelist case precedes the sign-in,
sign-out and auth-only cases in the dispatch switch. -/
theorem c5_counterexample :
    ({ reqBase with path := "/lap/sign_in" } : Request).path = cfgBase.signInPath ∧
    isWhitelistedRequest cfgBase { reqBase with path := "/lap/sign_in" } = true ∧
    serveHTTP cfgBase { reqBase with path := "/lap/sign_in" } = Dispatch.upstream ∧
    serveHTTP cfgBase { reqBase with path := "/lap/sign_in" } ≠ Dispatch.signInHandler := by
  refine ⟨rfl, rfl, rfl, by decide⟩

/-- C5 amended: the dispatch switch tries robots and ping before the
whitelist check, but consults the whitelist before the sign-in,
sign-out and auth-only system paths: a whitelisted request to one of
those three paths is routed to the upstream mux, and they are handled
as system paths only for non-whitelisted requests. -/
theorem c5_dispatch_order (cfg : ProxyConfig) (req : Request) :
    (req.path = cfg.robotsPath → serveHTTP cfg req = Dispatch.robots) ∧
    (req.path ≠ cfg.robotsPath → req.path = cfg.pingPath →
      serveHTTP cfg req = Dispatch.ping) ∧
    (req.path ≠ cfg.robotsPath → req.path ≠ cfg.pingPath →
      isWhitelistedRequest cfg req = true → serveHTTP cfg req = Dispatch.upstream) ∧
    (req.path ≠ cfg.robotsPath → req.path ≠ cfg.pingPath →
      isWhitelistedRequest cfg req = false → req.path = cfg.signInPath →
      serveHTTP cfg req = Dispatch.signInHandler) ∧
    (req.path ≠ cfg.robotsPath → req.path ≠ cfg.pingPath →
      isWhitelistedRequest cfg req = false → req.path ≠ cfg.signInPath →
      req.path = cfg.signOutPath → serveHTTP cfg req = Dispatch.signOutHandler) ∧
    (req.path ≠ cfg.robotsPath → req.path ≠ cfg.pingPath →
      isWhitelistedRequest cfg req = false → req.path ≠ cfg.signInPath →
      req.path ≠ cfg.signOutPath → req.path = cfg.authOnlyPath →
      serveHTTP cfg req = Dispatch.authOnlyHandler) := by
  refine ⟨fun h1 => ?_, fun h1 h2 => ?_, fun h1 h2 h3 => ?_, fun h1 h2 h3 h4 => ?_,
    fun h1 h2 h3 h4 h5 => ?_, fun h1 h2 h3 h4 h5 h6 => ?_⟩
  · simp only [serveHTTP]
    rw [if_pos h1]
  · simp only [serveHTTP]
    rw [if_neg h1, if_pos h2]
  · simp only [serveHTTP]
    rw [if_neg h1, if_neg h2, if_pos h3]
  · simp only [serveHTTP]
    rw [if_neg h1, if_neg h2, if_neg (by simp [h3]), if_pos h4]
  · simp only [serveHTTP]
    rw [if_neg h1, if_neg h2, if_neg (by simp [h3]), if_neg h4, if_pos h5]
  · simp only [serveHTTP]
    rw [if_neg h1, if_neg h2, if_neg (by simp [h3]), if_neg h4, if_neg h5, if_pos h6]

/-- Evaluation of `c5_dispatch_order` on explicit inputs: with the
whitelist pattern removed, the same sign-in request reaches the
sign-in handler. -/
theorem c5_dispatch_order_witness :
    serveHTTP { cfgBase with pathMatchers := [] } { reqBase with path := "/lap/sign_in" } =
      Dispatch.signInHandler :=
  (c5_dispatch_order { cfgBase with pathMatchers := [] }
      { reqBase with path := "/lap/sign_in" }).2.2.2.1
    (by decide) (by decide) (by decide) (by decide)

/-- C3, counterexample: with a successful bind for `dave` and a
failing group lookup, `LdapSignIn` reports `dave` authenticated (with
nil groups), and with no configured group allow-list the sign-in then
sets the session cookie and redirects with 302. -/
theorem c3_counterexample :
    lenvBase.groupsOf "dnERR" = Except.error "lookup failed" ∧
    ldapSignIn lenvBase reqDave = ("dave", [], true) ∧
    (signIn cfgBase lenvBase reqDave).status = 302 ∧
    (signIn cfgBase lenvBase reqDave).savedSession = some { user := "dave", email := "" } := by
  refine ⟨rfl, rfl, rfl, rfl⟩

/-- C3 amended: a group lookup error after a successful bind is not an
authentication failure of the attempt: `LdapSignIn` reports the user
authenticated with nil groups.  The sign-in then fails (401, no
cookie) exactly when a non-empty group allow-list is configured
(because nil groups intersect nothing); with an empty allow-list the
session cookie is set and a 302 redirect issued. -/
theorem c3_group_lookup_error (cfg : ProxyConfig) (lenv : LdapEnv) (req : Request)
    (attrs : String → String) (msg : String)
    (hu : formValue req "username" ≠ "")
    (hc : lenv.connect = Except.ok ())
    (ha : lenv.auth (formValue req "username") (formValue req "password") =
      Except.ok (true, attrs))
    (hg : lenv.groupsOf (attrs "dn") = Except.error msg) :
    ldapSignIn lenv req = (formValue req "username", [], true) ∧
    (req.parseFormFails = false → (manualSignIn cfg req).2 = false →
      ((cfg.ldapGroups ≠ [] →
        (signIn cfg lenv req).status = 401 ∧
        (signIn cfg lenv req).savedSession = none ∧
        (signIn cfg lenv req).clearedCookie = true) ∧
       (cfg.ldapGroups = [] →
        (signIn cfg lenv req).status = 302 ∧
        (signIn cfg lenv req).savedSession =
          some { user := formValue req "username", email := "" }))) := by
  have hl : ldapSignIn lenv req = (formValue req "username", [], true) := by
    simp [ldapSignIn, hc, ha, hg, hu]
  refine ⟨hl, fun hp hm => ?_⟩
  have hgr : getRedirect req = Except.ok
      (if formValue req "rd" = "" ∨ goStartsWith (formValue req "rd") "/" = false ∨
          goStartsWith (formValue req "rd") "//" = true
       then "/" else formValue req "rd") := by
    simp [getRedirect, hp]
  rcases hms : manualSignIn cfg req with ⟨mu, mb⟩
  rw [hms] at hm
  simp only at hm
  subst hm
  constructor
  · intro hgne
    have hrec : signIn cfg lenv req =
        { status := 401, location := none, savedSession := none, clearedCookie := true } := by
      simp [signIn, hgr, hms, hl, hgne, sliceContainsString]
    exact ⟨by rw [hrec], by rw [hrec], by rw [hrec]⟩
  · intro hge
    have hrec : signIn cfg lenv req =
        { status := 302,
          location := some (if formValue req "rd" = "" ∨
            goStartsWith (formValue req "rd") "/" = false ∨
            goStartsWith (formValue req "rd") "//" = true then "/" else formValue req "rd"),
          savedSession := some { user := formValue req "username", email := "" },
          clearedCookie := false } := by
      simp [signIn, hgr, hms, hl, hge]
    exact ⟨by rw [hrec], by rw [hrec]⟩

/-- Evaluation of `c3_group_lookup_error` on explicit inputs: the
`dave` sign-in whose group lookup fails is reported authenticated, and
with allow-list `admin` configured it is rejected with 401 and no
cookie. -/
theorem c3_group_lookup_error_witness :
    ldapSignIn lenvBase reqDave = ("dave", [], true) ∧
    (signIn { cfgBase with ldapGroups := ["admin"] } lenvBase reqDave).status = 401 ∧
    (signIn { cfgBase with ldapGroups := ["admin"] } lenvBase reqDave).savedSession = none :=
  ⟨(c3_group_lookup_error { cfgBase with ldapGroups := ["admin"] } lenvBase reqDave
      (fun k => if k = "dn" then "dnERR" else "") "lookup failed"
      (by decide) rfl rfl rfl).1,
   ((c3_group_lookup_error { cfgBase with ldapGroups := ["admin"] } lenvBase reqDave
      (fun k => if k = "dn" then "dnERR" else "") "lookup failed"
      (by decide) rfl rfl rfl).2 rfl rfl).1 (by decide) |>.1,
   ((c3_group_lookup_error { cfgBase with ldapGroups := ["admin"] } lenvBase reqDave
      (fun k => if k = "dn" then "dnERR" else "") "lookup failed"
      (by decide) rfl rfl rfl).2 rfl rfl).1 (by decide) |>.2.1⟩

/-- C6: group allow-list gating of sign-in.  `sliceContainsString` is
the case-insensitive non-empty-intersection test; a directory sign-in
against a non-empty allow-list succeeds (302, cookie saved) exactly
when the fetched groups intersect it and fails (401, no cookie, cookie
cleared) otherwise; a local-file (`ManualSignIn`) success is never
group-checked; and `Authenticate` (hence its Basic-Auth fallback) is
independent of the configured group allow-list. -/
theorem c6_group_filter (cfg : ProxyConfig) (lenv : LdapEnv) (req : Request)
    (u : String) (gs : List String) :
    (∀ a b : List String, sliceContainsString a b = true ↔
      ∃ x ∈ a, ∃ y ∈ b, goToLower x = goToLower y) ∧
    (req.parseFormFails = false → (manualSignIn cfg req).2 = false →
      ldapSignIn lenv req = (u, gs, true) → cfg.ldapGroups ≠ [] →
      ((sliceContainsString cfg.ldapGroups gs = true →
        (signIn cfg lenv req).status = 302 ∧
        (signIn cfg lenv req).savedSession = some { user := u, email := "" }) ∧
       (sliceContainsString cfg.ldapGroups gs = false →
        (signIn cfg lenv req).status = 401 ∧
        (signIn cfg lenv req).savedSession = none ∧
        (signIn cfg lenv req).clearedCookie = true))) ∧
    (req.parseFormFails = false → ∀ mu : String, manualSignIn cfg req = (mu, true) →
      (signIn cfg lenv req).status = 302 ∧
      (signIn cfg lenv req).savedSession = some { user := mu, email := "" }) ∧
    (∀ env : AuthEnv, ∀ g1 g2 : List String,
      authenticate { cfg with ldapGroups := g1 } env req =
        authenticate { cfg with ldapGroups := g2 } env req) := by
  refine ⟨?_, ?_, ?_, ?_⟩
  · intro a b
    simp [sliceContainsString, List.any_eq_true]
  · intro hp hm hl hgne
    have hgr : getRedirect req = Except.ok
        (if formValue req "rd" = "" ∨ goStartsWith (formValue req "rd") "/" = false ∨
            goStartsWith (formValue req "rd") "//" = true
         then "/" else formValue req "rd") := by
      simp [getRedirect, hp]
    rcases hms : manualSignIn cfg req with ⟨mu, mb⟩
    rw [hms] at hm
    simp only at hm
    subst hm
    constructor
    · intro hin
      have hrec : signIn cfg lenv req =
          { status := 302,
            location := some (if formValue req "rd" = "" ∨
              goStartsWith (formValue req "rd") "/" = false ∨
              goStartsWith (formValue req "rd") "//" = true then "/" else formValue req "rd"),
            savedSession := some { user := u, email := "" },
            clearedCookie := false } := by
        simp [signIn, hgr, hms, hl, hgne, hin]
      exact ⟨by rw [hrec], by rw [hrec]⟩
    · intro hout
      have hrec : signIn cfg lenv req =
          { status := 401, location := none, savedSession := none, clearedCookie := true } := by
        simp [signIn, hgr, hms, hl, hgne, hout]
      exact ⟨by rw [hrec], by rw [hrec], by rw [hrec]⟩
  · intro hp mu hms
    have hgr : getRedirect req = Except.ok
        (if formValue req "rd" = "" ∨ goStartsWith (formValue req "rd") "/" = false ∨
            goStartsWith (formValue req "rd") "//" = true
         then "/" else formValue req "rd") := by
      simp [getRedirect, hp]
    have hrec : signIn cfg lenv req =
        { status := 302,
          location := some (if formValue req "rd" = "" ∨
            goStartsWith (formValue req "rd") "/" = false ∨
            goStartsWith (formValue req "rd") "//" = true then "/" else formValue req "rd"),
          savedSession := some { user := mu, email := "" },
          clearedCookie := false } := by
      simp [signIn, hgr, hms]
    exact ⟨by rw [hrec], by rw [hrec]⟩
  · intro env g1 g2
    rfl

/-- The interval-refresh block never changes the session itself. -/
theorem stepRefreshInterval_session (cfg : ProxyConfig) (a : Int) (st : EngineState) :
    (stepRefreshInterval cfg a st).session = st.session := by
  unfold stepRefreshInterval
  split
  · rfl
  · split <;> rfl

/-- The refresh-hook block keeps the session or drops it. -/
theorem stepRefreshHook_session (ro : Except String Bool) (st : EngineState) :
    (stepRefreshHook ro st).session = st.session ∨ (stepRefreshHook ro st).session = none := by
  unfold stepRefreshHook
  split
  · right
    rfl
  · left
    rfl
  · left
    rfl

/-- The expiry block keeps the session or drops it. -/
theorem stepExpiry_session (cfg : ProxyConfig) (a : Int) (st : EngineState) :
    (stepExpiry cfg a st).session = st.session ∨ (stepExpiry cfg a st).session = none := by
  unfold stepExpiry
  split
  · left
    rfl
  · split
    · right
      rfl
    · left
      rfl

/-- The local-validation block keeps the session or drops it. -/
theorem stepValidate_session (vs : Bool) (st : EngineState) :
    (stepValidate vs st).session = st.session ∨ (stepValidate vs st).session = none := by
  unfold stepValidate
  split
  · left
    rfl
  · split
    · right
      rfl
    · left
      rfl

/-- Any session still present right before the policy gate is the
loaded cookie session: the decision blocks never replace a session,
they only drop it. -/
theorem preGate_session_sub (cfg : ProxyConfig) (env : AuthEnv) (t : SessionState)
    (h : (stepValidate env.validState
        (stepExpiry cfg env.sessionAge
          (stepRefreshHook env.refreshOutcome
            (stepRefreshInterval cfg env.sessionAge
              { session := env.loadedSession, saveSession := false,
                clearSession := false, revalidated := false })))).session = some t) :
    env.loadedSession = some t := by
  rcases stepValidate_session env.validState
      (stepExpiry cfg env.sessionAge
        (stepRefreshHook env.refreshOutcome
          (stepRefreshInterval cfg env.sessionAge
            { session := env.loadedSession, saveSession := false,
              clearSession := false, revalidated := false }))) with h4 | h4
  · rw [h4] at h
    rcases stepExpiry_session cfg env.sessionAge
        (stepRefreshHook env.refreshOutcome
          (stepRefreshInterval cfg env.sessionAge
            { session := env.loadedSession, saveSession := false,
              clearSession := false, revalidated := false })) with h3 | h3
    · rw [h3] at h
      rcases stepRefreshHook_session env.refreshOutcome
          (stepRefreshInterval cfg env.sessionAge
            { session := env.loadedSession, saveSession := false,
              clearSession := false, revalidated := false }) with h2 | h2
      · rw [h2, stepRefreshInterval_session] at h
        exact h
      · rw [h2] at h
        exact Option.noConfusion h
    · rw [h3] at h
      exact Option.noConfusion h
  · rw [h4] at h
    exact Option.noConfusion h

/-- The policy gate acts identically for any two allow predicates on a
state whose session (if any) has an empty email: the predicate is
never evaluated then. -/
theorem stepPolicyGate_email_skip (v1 v2 : String → Bool) (st : EngineState)
    (h : ∀ t, st.session = some t → t.email = "") :
    stepPolicyGate v1 st = stepPolicyGate v2 st := by
  rcases hs : st.session with _ | t
  · simp [stepPolicyGate, hs]
  · have he := h t hs
    simp [stepPolicyGate, hs, he]

/-- Field characterization of the engine tail: the flags are carried
through from the pre-save state, no save failure is reported there,
and the status is 202 or 403. -/
theorem authFinish_fields (cfg : ProxyConfig) (env : AuthEnv) (req : Request)
    (st : EngineState) (sa : Bool) :
    (authFinish cfg env req st sa).saveSessionFlag = st.saveSession ∧
    (authFinish cfg env req st sa).clearSessionFlag = st.clearSession ∧
    (authFinish cfg env req st sa).clearedCookie = st.clearSession ∧
    (authFinish cfg env req st sa).saveAttempted = sa ∧
    (authFinish cfg env req st sa).saveFailed = false ∧
    ((authFinish cfg env req st sa).status = 202 ∨
      (authFinish cfg env req st sa).status = 403) := by
  rcases hs : st.session with _ | s
  · rcases hb : checkBasicAuth cfg.htpasswd env.b64decode req with e | os
    · simp [authFinish, hs, hb]
    · rcases os with _ | u <;> simp [authFinish, hs, hb]
  · simp [authFinish, hs]

/-- When no session survives the decision blocks, the engine tail is
decided by the Basic-Auth fallback. -/
theorem authFinish_basic (cfg : ProxyConfig) (env : AuthEnv) (req : Request)
    (st : EngineState) (sa : Bool) (h : st.session = none) :
    (authFinish cfg env req st sa).finalSession = basicSessionOf cfg env req ∧
    (authFinish cfg env req st sa).basicConsulted = true ∧
    (basicSessionOf cfg env req = none → (authFinish cfg env req st sa).status = 403) ∧
    (∀ t, basicSessionOf cfg env req = some t →
      (authFinish cfg env req st sa).status = 202) := by
  rcases hb : checkBasicAuth cfg.htpasswd env.b64decode req with e | os
  · simp [authFinish, basicSessionOf, h, hb]
  · rcases os with _ | u <;> simp [authFinish, basicSessionOf, h, hb]

/-- When the decision blocks drop the session, `Authenticate` skips
the save block and runs the tail with no save attempted. -/
theorem authenticate_of_dropped (cfg : ProxyConfig) (env : AuthEnv) (req : Request)
    (h : (preSaveState cfg env).session = none) :
    authenticate cfg env req = authFinish cfg env req (preSaveState cfg env) false := by
  simp only [authenticate, h]

/-- The `LAP-Auth` trust header carries the user name whenever the
final session has an empty email (engine tail version). -/
theorem authFinish_lap (cfg : ProxyConfig) (env : AuthEnv) (req : Request)
    (st : EngineState) (sa : Bool) (t : SessionState)
    (h : (authFinish cfg env req st sa).finalSession = some t) (he : t.email = "") :
    (authFinish cfg env req st sa).lapAuth = some t.user := by
  rcases hs : st.session with _ | s
  · rcases hb : checkBasicAuth cfg.htpasswd env.b64decode req with e | os
    · simp [authFinish, hs, hb] at h
    · rcases os with _ | u
      · simp [authFinish, hs, hb] at h
      · simp only [authFinish, hs, hb] at h ⊢
        simp only [Option.some.injEq] at h
        subst h
        simp [he]
  · simp only [authFinish, hs] at h ⊢
    simp only [Option.some.injEq] at h
    subst h
    simp [he]

/-- The session loaded from a cookie is dropped with a scheduled clear
whenever it is unexpired, carries a non-empty email and the allow
predicate rejects that email — through every combination of the
refresh and validation hooks. -/
theorem preSave_policy_drop (cfg : ProxyConfig) (env : AuthEnv) (s : SessionState)
    (hs : env.loadedSession = some s) (he : s.email ≠ "")
    (hv : cfg.validator s.email = false) (hexp : ¬ env.sessionAge > cfg.cookieExpire) :
    (preSaveState cfg env).session = none ∧ (preSaveState cfg env).clearSession = true := by
  rcases hro : env.refreshOutcome with e | b
  · by_cases hri : env.sessionAge > cfg.cookieRefresh ∧ cfg.cookieRefresh ≠ 0 <;>
      simp [preSaveState, stepRefreshInterval, stepRefreshHook, stepExpiry, stepValidate,
        stepPolicyGate, hs, hro, hri]
  · cases b <;>
      cases hvs : env.validState <;>
      by_cases hri : env.sessionAge > cfg.cookieRefresh ∧ cfg.cookieRefresh ≠ 0 <;>
      simp [preSaveState, stepRefreshInterval, stepRefreshHook, stepExpiry, stepValidate,
        stepPolicyGate, hs, hro, hri, hvs, he, hv, hexp]

/-- An expired loaded session is always dropped with a scheduled
clear, and when the refresh hook did not itself drop it first, the
expiry block also cancels the pending save flag. -/
theorem preSave_expiry_drop (cfg : ProxyConfig) (env : AuthEnv) (s : SessionState)
    (hs : env.loadedSession = some s) (hexp : env.sessionAge > cfg.cookieExpire) :
    (preSaveState cfg env).session = none ∧ (preSaveState cfg env).clearSession = true ∧
    (∀ b, env.refreshOutcome = Except.ok b → (preSaveState cfg env).saveSession = false) := by
  rcases hro : env.refreshOutcome with e | b
  · by_cases hri : env.sessionAge > cfg.cookieRefresh ∧ cfg.cookieRefresh ≠ 0 <;>
      simp [preSaveState, stepRefreshInterval, stepRefreshHook, stepExpiry, stepValidate,
        stepPolicyGate, hs, hro, hri]
  · cases b <;>
      by_cases hri : env.sessionAge > cfg.cookieRefresh ∧ cfg.cookieRefresh ≠ 0 <;>
      simp [preSaveState, stepRefreshInterval, stepRefreshHook, stepExpiry, stepValidate,
        stepPolicyGate, hs, hro, hri, hexp]

/-- C1, counterexample: a cryptographically valid, unexpired session
for `alice` with email `x@y.com` rejected by the allow predicate does
not force 403 — the same request also carries a valid Basic `bob:pw`
credential, so `Authenticate` returns 202. -/
theorem c1_counterexample :
    envBase.loadedSession = some { user := "alice", email := "x@y.com" } ∧
    cfgBase.validator "x@y.com" = false ∧
    envBase.sessionAge ≤ cfgBase.cookieExpire ∧
    (authenticate cfgBase envBase reqBase).status = 202 ∧
    (authenticate cfgBase envBase reqBase).status ≠ 403 := by
  refine ⟨rfl, rfl, by decide, rfl, by decide⟩

/-- C1 amended: for a valid, unexpired loaded session with a non-empty
email rejected by the allow predicate, `Authenticate` drops the
session (no save is attempted, the cookie is cleared) and the outcome
is decided by the Basic-Auth fallback alone: 403 when it produces no
session, 202 when it does. -/
theorem c1_policy_gate (cfg : ProxyConfig) (env : AuthEnv) (req : Request) (s : SessionState)
    (hs : env.loadedSession = some s) (he : s.email ≠ "")
    (hv : cfg.validator s.email = false) (hexp : env.sessionAge ≤ cfg.cookieExpire) :
    (authenticate cfg env req).saveAttempted = false ∧
    (authenticate cfg env req).clearedCookie = true ∧
    (authenticate cfg env req).finalSession = basicSessionOf cfg env req ∧
    (basicSessionOf cfg env req = none → (authenticate cfg env req).status = 403) ∧
    (∀ t, basicSessionOf cfg env req = some t → (authenticate cfg env req).status = 202) := by
  obtain ⟨h1, h2⟩ := preSave_policy_drop cfg env s hs he hv (not_lt.mpr hexp)
  have hau := authenticate_of_dropped cfg env req h1
  obtain ⟨f1, f2, f3, f4, f5, f6⟩ := authFinish_fields cfg env req (preSaveState cfg env) false
  obtain ⟨g1, g2, g3, g4⟩ := authFinish_basic cfg env req (preSaveState cfg env) false h1
  rw [hau]
  exact ⟨f4, by rw [f3, h2], g1, g3, g4⟩

/-- Evaluation of `c1_policy_gate` on explicit inputs: with the Basic
credential present the rejected session yields 202; with no headers at
all it yields 403; in both cases the cookie is cleared and never
saved. -/
theorem c1_policy_gate_witness :
    (authenticate cfgBase envBase reqBase).status = 202 ∧
    (authenticate cfgBase envBase { reqBase with headers := [] }).status = 403 ∧
    (authenticate cfgBase envBase reqBase).saveAttempted = false ∧
    (authenticate cfgBase envBase reqBase).clearedCookie = true :=
  ⟨(c1_policy_gate cfgBase envBase reqBase { user := "alice", email := "x@y.com" }
      rfl (by decide) rfl (by decide)).2.2.2.2 { user := "bob", email := "" } rfl,
   (c1_policy_gate cfgBase envBase { reqBase with headers := [] }
      { user := "alice", email := "x@y.com" }
      rfl (by decide) rfl (by decide)).2.2.2.1 rfl,
   (c1_policy_gate cfgBase envBase reqBase { user := "alice", email := "x@y.com" }
      rfl (by decide) rfl (by decide)).1,
   (c1_policy_gate cfgBase envBase reqBase { user := "alice", email := "x@y.com" }
      rfl (by decide) rfl (by decide)).2.1⟩

/-- C4, counterexample: when the refresh hook errors on a request
whose loaded session is already past the configured expiry (and a
refresh-driven save was pending), the session is dropped and the
cookie cleared, but the `saveSession` flag is never set back to false
— its final value is true, against the claimed `saveSession=false`. -/
theorem c4_counterexample :
    ({ envBase with
        sessionAge := 200,
        refreshOutcome := Except.error "boom" } : AuthEnv).sessionAge >
      cfgBase.cookieExpire ∧
    (authenticate cfgBase
      { envBase with
        sessionAge := 200,
        refreshOutcome := Except.error "boom" }
      reqBase).saveSessionFlag = true ∧
    (authenticate cfgBase
      { envBase with
        sessionAge := 200,
        refreshOutcome := Except.error "boom" }
      reqBase).clearSessionFlag = true := by
  refine ⟨by decide, rfl, rfl⟩

/-- C4 amended: a loaded session older than the configured expiry is
always dropped with the cookie cleared and is never re-signed or
saved (no save is attempted and no save failure can occur, so the
status is 202 or 403, never 500); when the session actually reaches
the expiry block (the refresh hook returned rather than erroring) the
pending `saveSession` flag is also reset to false.  Only on the
refresh-hook-error path, which drops the session even earlier, can the
flag keep its pending value — harmlessly, as no save runs without a
session. -/
theorem c4_expiry_wins (cfg : ProxyConfig) (env : AuthEnv) (req : Request) (s : SessionState)
    (hs : env.loadedSession = some s) (hexp : env.sessionAge > cfg.cookieExpire) :
    (authenticate cfg env req).saveAttempted = false ∧
    (authenticate cfg env req).saveFailed = false ∧
    (authenticate cfg env req).clearedCookie = true ∧
    (authenticate cfg env req).clearSessionFlag = true ∧
    ((authenticate cfg env req).status = 202 ∨ (authenticate cfg env req).status = 403) ∧
    (∀ b, env.refreshOutcome = Except.ok b →
      (authenticate cfg env req).saveSessionFlag = false) := by
  obtain ⟨h1, h2, h3⟩ := preSave_expiry_drop cfg env s hs hexp
  have hau := authenticate_of_dropped cfg env req h1
  obtain ⟨f1, f2, f3, f4, f5, f6⟩ := authFinish_fields cfg env req (preSaveState cfg env) false
  rw [hau]
  exact ⟨f4, f5, by rw [f3, h2], by rw [f2, h2], f6,
    fun b hb => by rw [f1, h3 b hb]⟩

/-- Evaluation of `c4_expiry_wins` on explicit inputs: an expired
session (age 200 against expiry 100, refresh due at 10) is not saved,
the cookie is cleared and the pending save flag is reset. -/
theorem c4_expiry_wins_witness :
    (authenticate cfgBase { envBase with sessionAge := 200 } reqBase).saveAttempted = false ∧
    (authenticate cfgBase { envBase with sessionAge := 200 } reqBase).clearedCookie = true ∧
    (authenticate cfgBase { envBase with sessionAge := 200 } reqBase).saveSessionFlag = false :=
  ⟨(c4_expiry_wins cfgBase { envBase with sessionAge := 200 } reqBase
      { user := "alice", email := "x@y.com" } rfl (by decide)).1,
   (c4_expiry_wins cfgBase { envBase with sessionAge := 200 } reqBase
      { user := "alice", email := "x@y.com" } rfl (by decide)).2.2.1,
   (c4_expiry_wins cfgBase { envBase with sessionAge := 200 } reqBase
      { user := "alice", email := "x@y.com" } rfl (by decide)).2.2.2.2.2 false rfl⟩

/-- C8: `Authenticate` returns only 202, 403 or 500; it returns 500
exactly when a save was pending for a surviving session and the cookie
re-signing failed, and in that case it returns immediately — no cookie
clear, no Basic-Auth fallback, no header injection; `Proxy` renders
the error page exactly for that status. -/
theorem c8_internal_error (cfg : ProxyConfig) (env : AuthEnv) (req : Request) :
    ((authenticate cfg env req).status = 202 ∨ (authenticate cfg env req).status = 403 ∨
      (authenticate cfg env req).status = 500) ∧
    ((authenticate cfg env req).status = 500 ↔
      ((preSaveState cfg env).session.isSome = true ∧
       (preSaveState cfg env).saveSession = true ∧
       (∃ m, env.saveOutcome = Except.error m))) ∧
    ((authenticate cfg env req).status = 500 →
      (authenticate cfg env req).clearedCookie = false ∧
      (authenticate cfg env req).basicConsulted = false ∧
      (authenticate cfg env req).saveAttempted = true ∧
      (authenticate cfg env req).saveFailed = true ∧
      (authenticate cfg env req).lapAuth = none ∧
      (authenticate cfg env req).finalSession = none) ∧
    (proxyDispatch (authenticate cfg env req).status = ProxyAction.errorPage ↔
      (authenticate cfg env req).status = 500) := by
  rcases hs : (preSaveState cfg env).session with _ | s0
  · have hau := authenticate_of_dropped cfg env req hs
    obtain ⟨f1, f2, f3, f4, f5, f6⟩ := authFinish_fields cfg env req (preSaveState cfg env) false
    rw [hau]
    refine ⟨by tauto, ⟨?_, ?_⟩, ?_, ?_⟩
    · intro h500
      rcases f6 with h | h <;> rw [h] at h500 <;> simp at h500
    · rintro ⟨hsome, -, -⟩
      simp at hsome
    · intro h500
      rcases f6 with h | h <;> rw [h] at h500 <;> simp at h500
    · rcases f6 with h | h <;> rw [h] <;> simp [proxyDispatch]
  · by_cases hsv : (preSaveState cfg env).saveSession = true
    · rcases hso : env.saveOutcome with m | u
      · have hau : authenticate cfg env req =
            { status := 500, saveAttempted := true, saveFailed := true,
              clearedCookie := false, basicConsulted := false, finalSession := none,
              outAuth := none, xfUser := none, xfEmail := none, xarUser := none,
              xarEmail := none, lapAuth := none, saveSessionFlag := true,
              clearSessionFlag := (preSaveState cfg env).clearSession } := by
          simp [authenticate, hs, hsv, hso]
        rw [hau]
        refine ⟨by simp, ⟨fun _ => ⟨rfl, hsv, ⟨m, rfl⟩⟩, fun _ => rfl⟩,
          fun _ => ⟨rfl, rfl, rfl, rfl, rfl, rfl⟩, by simp [proxyDispatch]⟩
      · have hau : authenticate cfg env req =
            authFinish cfg env req (preSaveState cfg env) true := by
          simp [authenticate, hs, hsv, hso]
        obtain ⟨f1, f2, f3, f4, f5, f6⟩ :=
          authFinish_fields cfg env req (preSaveState cfg env) true
        rw [hau]
        refine ⟨by tauto, ⟨?_, ?_⟩, ?_, ?_⟩
        · intro h500
          rcases f6 with h | h <;> rw [h] at h500 <;> simp at h500
        · rintro ⟨-, -, m, hm⟩
          exact Except.noConfusion hm
        · intro h500
          rcases f6 with h | h <;> rw [h] at h500 <;> simp at h500
        · rcases f6 with h | h <;> rw [h] <;> simp [proxyDispatch]
    · have hsvf : (preSaveState cfg env).saveSession = false := by
        simpa using hsv
      have hau : authenticate cfg env req =
          authFinish cfg env req (preSaveState cfg env) false := by
        simp [authenticate, hs, hsvf]
      obtain ⟨f1, f2, f3, f4, f5, f6⟩ :=
        authFinish_fields cfg env req (preSaveState cfg env) false
      rw [hau]
      refine ⟨by tauto, ⟨?_, ?_⟩, ?_, ?_⟩
      · intro h500
        rcases f6 with h | h <;> rw [h] at h500 <;> simp at h500
      · rintro ⟨-, hsvt, -⟩
        rw [hsvf] at hsvt
        exact Bool.noConfusion hsvt
      · intro h500
        rcases f6 with h | h <;> rw [h] at h500 <;> simp at h500
      · rcases f6 with h | h <;> rw [h] <;> simp [proxyDispatch]

/-- Evaluation of `c8_internal_error` on explicit inputs: a pending
refresh save (age 50, refresh at 10, unexpired) whose re-signing
fails yields exactly status 500. -/
theorem c8_internal_error_witness :
    (authenticate cfgBase
      { envBase with
        loadedSession := some { user := "alice", email := "" },
        sessionAge := 50,
        saveOutcome := Except.error "sign failed" } reqBase).status = 500 :=
  ((c8_internal_error cfgBase
      { envBase with
        loadedSession := some { user := "alice", email := "" },
        sessionAge := 50,
        saveOutcome := Except.error "sign failed" } reqBase).2.1).mpr
    ⟨by decide, by decide, ⟨"sign failed", rfl⟩⟩

/-- C10: sessions minted by the Basic-Auth fallback and by the
local-file sign-in populate only the user field (empty email);
`Authenticate` never evaluates the allow predicate on requests whose
loaded cookie session (if any) has an empty email — its result is the
same for any two predicates; and for a final session with an empty
email the `LAP-Auth` trust header carries the user name. -/
theorem c10_local_sessions (ht : Option (String → String → Bool))
    (dec : String → Except String String) (req : Request) (cfg : ProxyConfig)
    (lenv : LdapEnv) (env : AuthEnv) (v1 v2 : String → Bool) :
    (∀ t, checkBasicAuth ht dec req = Except.ok (some t) → t.email = "") ∧
    (req.parseFormFails = false → ∀ mu, manualSignIn cfg req = (mu, true) →
      (signIn cfg lenv req).savedSession = some { user := mu, email := "" }) ∧
    ((∀ t, env.loadedSession = some t → t.email = "") →
      authenticate { cfg with validator := v1 } env req =
        authenticate { cfg with validator := v2 } env req) ∧
    (∀ t, (authenticate cfg env req).finalSession = some t → t.email = "" →
      (authenticate cfg env req).lapAuth = some t.user) := by
  refine ⟨?_, ?_, ?_, ?_⟩
  · intro t h
    rcases ht with _ | validate
    · simp [checkBasicAuth] at h
    · simp only [checkBasicAuth] at h
      split at h
      · simp at h
      · split at h
        · exact Except.noConfusion h
        · split at h
          · exact Except.noConfusion h
          · split at h
            · exact Except.noConfusion h
            · split at h
              · simp only [Except.ok.injEq, Option.some.injEq] at h
                rw [← h]
              · exact Except.noConfusion h
  · intro hp mu hms
    have hgr : getRedirect req = Except.ok
        (if formValue req "rd" = "" ∨ goStartsWith (formValue req "rd") "/" = false ∨
            goStartsWith (formValue req "rd") "//" = true
         then "/" else formValue req "rd") := by
      simp [getRedirect, hp]
    have hrec : signIn cfg lenv req =
        { status := 302,
          location := some (if formValue req "rd" = "" ∨
            goStartsWith (formValue req "rd") "/" = false ∨
            goStartsWith (formValue req "rd") "//" = true then "/" else formValue req "rd"),
          savedSession := some { user := mu, email := "" },
          clearedCookie := false } := by
      simp [signIn, hgr, hms]
    rw [hrec]
  · intro hses
    have hmid : ∀ t, (stepValidate env.validState
        (stepExpiry cfg env.sessionAge
          (stepRefreshHook env.refreshOutcome
            (stepRefreshInterval cfg env.sessionAge
              { session := env.loadedSession, saveSession := false,
                clearSession := false, revalidated := false })))).session = some t →
        t.email = "" := by
      intro t ht
      exact hses t (preGate_session_sub cfg env t ht)
    have h1 : preSaveState { cfg with validator := v1 } env =
        preSaveState { cfg with validator := v2 } env := by
      exact stepPolicyGate_email_skip v1 v2
        (stepValidate env.validState
          (stepExpiry cfg env.sessionAge
            (stepRefreshHook env.refreshOutcome
              (stepRefreshInterval cfg env.sessionAge
                { session := env.loadedSession, saveSession := false,
                  clearSession := false, revalidated := false })))) hmid
    have hfin : ∀ st sa, authFinish { cfg with validator := v1 } env req st sa =
        authFinish { cfg with validator := v2 } env req st sa := fun st sa => rfl
    simp only [authenticate, h1, hfin]
  · intro t h he
    rcases hs : (preSaveState cfg env).session with _ | s0
    · have hau := authenticate_of_dropped cfg env req hs
      rw [hau] at h ⊢
      exact authFinish_lap cfg env req (preSaveState cfg env) false t h he
    · by_cases hsv : (preSaveState cfg env).saveSession = true
      · rcases hso : env.saveOutcome with m | u
        · simp only [authenticate, hs, hsv, hso] at h
          simp at h
        · simp only [authenticate, hs, hsv, hso] at h ⊢
          exact authFinish_lap cfg env req (preSaveState cfg env) true t h he
      · have hsvf : (preSaveState cfg env).saveSession = false := by
          simpa using hsv
        simp only [authenticate, hs, hsvf] at h ⊢
        exact authFinish_lap cfg env req (preSaveState cfg env) false t h he

/-- Evaluation of `c10_local_sessions` on explicit inputs: a loaded
email-free session makes `Authenticate` insensitive to the allow
predicate, and its `LAP-Auth` header carries the user name. -/
theorem c10_local_sessions_witness :
    authenticate { cfgBase with validator := fun _ => true }
      { envBase with loadedSession := some { user := "alice", email := "" } } reqBase =
    authenticate { cfgBase with validator := fun _ => false }
      { envBase with loadedSession := some { user := "alice", email := "" } } reqBase ∧
    (authenticate cfgBase
      { envBase with loadedSession := some { user := "alice", email := "" } }
      reqBase).lapAuth = some "alice" :=
  ⟨(c10_local_sessions cfgBase.htpasswd envBase.b64decode reqBase cfgBase lenvBase
      { envBase with loadedSession := some { user := "alice", email := "" } }
      (fun _ => true) (fun _ => false)).2.2.1
    (by intro t ht; injection ht with hh; rw [← hh]),
   (c10_local_sessions cfgBase.htpasswd envBase.b64decode reqBase cfgBase lenvBase
      { envBase with loadedSession := some { user := "alice", email := "" } }
      (fun _ => true) (fun _ => false)).2.2.2
    { user := "alice", email := "" } rfl rfl⟩

/-- Evaluation of `c6_group_filter` on the spec example: fetched
groups `eng`/`ops` against allow-list `admin` fail with 401 and no
cookie; against allow-list `eng` they succeed with 302 and a saved
cookie for `carol`. -/
theorem c6_group_filter_witness :
    (signIn { cfgBase with ldapGroups := ["admin"] } lenvBase reqCarol).status = 401 ∧
    (signIn { cfgBase with ldapGroups := ["admin"] } lenvBase reqCarol).savedSession = none ∧
    (signIn { cfgBase with ldapGroups := ["eng"] } lenvBase reqCarol).status = 302 ∧
    (signIn { cfgBase with ldapGroups := ["eng"] } lenvBase reqCarol).savedSession =
      some { user := "carol", email := "" } :=
  ⟨(((c6_group_filter { cfgBase with ldapGroups := ["admin"] } lenvBase reqCarol
      "carol" ["eng", "ops"]).2.1 rfl (by decide) rfl (by decide)).2 (by decide)).1,
   (((c6_group_filter { cfgBase with ldapGroups := ["admin"] } lenvBase reqCarol
      "carol" ["eng", "ops"]).2.1 rfl (by decide) rfl (by decide)).2 (by decide)).2.1,
   (((c6_group_filter { cfgBase with ldapGroups := ["eng"] } lenvBase reqCarol
      "carol" ["eng", "ops"]).2.1 rfl (by decide) rfl (by decide)).1 (by decide)).1,
   (((c6_group_filter { cfgBase with ldapGroups := ["eng"] } lenvBase reqCarol
      "carol" ["eng", "ops"]).2.1 rfl (by decide) rfl (by decide)).1 (by decide)).2⟩

end LdapProxy
